import Mathlib

/-
Shallow embedding of the Expense-Tracker backend (src/server.js, the latest
variant, and src/Server.js, the older variant).  Both files are Express route
handlers over three external collaborators: a JWT library, a hosted database
(tables "users" and "expenses") and a hosted classifier.

Modelling decisions:
* JWT signatures are modelled symbolically: a token is either a payload signed
  under some secret, or a malformed blob.  jwt.sign produces a signed token and
  jwt.verify succeeds exactly on tokens signed under the secret it is given.
  Token strings appearing in Authorization headers are related to symbolic
  tokens by an uninterpreted map given in the environment.
* The database is explicit state: a list of user rows, a list of expense rows,
  a counter for store-assigned ids and a clock for store-assigned created_at.
  Each external call that can fail is driven by an error oracle in the
  environment: the field holds the error object the store would report.
* JavaScript string operations are embedded with JS semantics:
  split on a single character, whitespace trim, and the falsy-or idiom x || y
  which falls back both for undefined and for the empty string.
* An async handler with no try/catch around a rejecting await does not write a
  response; this escape is modelled by the distinguished response value exn.
-/

/-- JavaScript String.prototype.split with a single-character separator,
on the character list of the string. -/
def jsSplitChar (c : Char) : List Char → List (List Char)
  | [] => [[]]
  | x :: xs =>
    let r := jsSplitChar c xs
    if x = c then [] :: r
    else
      match r with
      | [] => [[x]]
      | y :: ys => (x :: y) :: ys

/-- JavaScript s.split(c) for a one-character separator c. -/
def jsSplit (c : Char) (s : String) : List String :=
  (jsSplitChar c s.data).map (fun l => ⟨l⟩)

/-- JavaScript String.prototype.trim: strip leading and trailing whitespace. -/
def jsTrim (s : String) : String :=
  ⟨((s.data.dropWhile (fun ch => ch.isWhitespace)).reverse.dropWhile
      (fun ch => ch.isWhitespace)).reverse⟩

/-- JavaScript x || y restricted to string-valued fields: y is used when x is
undefined or the empty string (both falsy). -/
def jsOr (x : Option String) (y : String) : String :=
  match x with
  | none => y
  | some s => if s = "" then y else s

/-- The identity object signed into a token at signup: payload of jwt.sign. -/
structure Identity where
  id : String
  email : String
deriving DecidableEq, Repr

/-- Symbolic model of a JWT: either a payload correctly signed under a secret,
or a blob that is not a valid signature under any secret (a tampered or
malformed token). -/
inductive Token where
  | signed (secret : String) (payload : Identity)
  | malformed (raw : String)
deriving DecidableEq, Repr

/-- jwt.sign(payload, secret). -/
def jwtSign (secret : String) (payload : Identity) : Token :=
  Token.signed secret payload

/-- jwt.verify(token, secret): some payload on a valid signature under this
secret, none when the library would throw. -/
def jwtVerify (token : Token) (secret : String) : Option Identity :=
  match token with
  | Token.signed s p => if s = secret then some p else none
  | Token.malformed _ => none

/-- One row of the external expenses table.  id and created_at are assigned by
the store; currency fields are absent (none) for rows written by the older
variant, which does not send them. -/
structure Row where
  id : Nat
  user_id : String
  amount : Int
  description : String
  category : String
  currency : Option String
  currency_symbol : Option String
  created_at : Nat
deriving DecidableEq, Repr

/-- The external store: users table, expenses table, the next store-assigned
row id and a clock for created_at stamps. -/
structure Store where
  users : List (String × String)
  rows : List Row
  nextId : Nat
  now : Nat
deriving DecidableEq, Repr

/-- A store is well formed when the store-assigned primary key id is unique
across the expenses table. -/
def Store.WF (st : Store) : Prop :=
  st.rows.Pairwise (fun a b => a.id ≠ b.id)

/-- Environment of external collaborators for one request: the signing secret,
the meaning of header token strings as symbolic tokens, the classifier (none
when the inference call rejects; otherwise the message contents of choices),
and error oracles for each store operation (some e: the store reports error
object e). -/
structure Env where
  secret : String
  parse : String → Token
  classify : String → Option (List String)
  insertErr : Option String
  registerErr : Option String
  selectErr : Option String
  deleteErr : Option String

/-- Responses a route can produce.  err s e is res.status(s).json with error
body e; exn is an exception escaping the async handler (no response written by
the route's own code). -/
inductive Resp where
  | okSignup (token : Token) (userId : String)
  | okSignupOld (token : Token)
  | okExpense (message : String) (data : Row)
  | okAdd (success : Bool)
  | okList (data : List Row)
  | okDeleted (message : String)
  | err (status : Nat) (error : String)
  | exn
deriving DecidableEq, Repr

/-- Whether a response is an HTTP 400 error response. -/
def Resp.isErr400 : Resp → Bool
  | Resp.err 400 _ => true
  | _ => false

/-- Outcome of the auth middleware: 401 No token, 401 Invalid token, or
next() with req.user set. -/
inductive AuthOutcome where
  | missing
  | invalid
  | ok (user : Identity)
deriving DecidableEq, Repr

/-- req.headers.authorization?.split(" ")[1], followed by the falsy test
`if (!token)`: the extracted token is the second space-separated field, and an
absent or empty second field counts as no token. -/
def extractToken (authorization : Option String) : Option String :=
  match authorization with
  | none => none
  | some h =>
    match (jsSplit ' ' h)[1]? with
    | none => none
    | some t => if t = "" then none else some t

/-- The auth middleware of both variants (src/server.js lines 55-66,
src/Server.js lines 30-41). -/
def auth (secret : String) (parse : String → Token) (authorization : Option String) :
    AuthOutcome :=
  match extractToken authorization with
  | none => AuthOutcome.missing
  | some ts =>
    match jwtVerify (parse ts) secret with
    | some u => AuthOutcome.ok u
    | none => AuthOutcome.invalid

/-- A protected route: the auth middleware runs first and the handler body runs
only when it calls next() with an authenticated user. -/
def guarded (secret : String) (parse : String → Token) (authorization : Option String)
    (handler : Identity → Store → Store × Resp) (st : Store) : Store × Resp :=
  match auth secret parse authorization with
  | AuthOutcome.missing => (st, Resp.err 401 "No token")
  | AuthOutcome.invalid => (st, Resp.err 401 "Invalid token")
  | AuthOutcome.ok u => handler u st

/-- supabase.from("expenses").insert(...): the store assigns the next id and
the current created_at stamp and appends the row. -/
def insertExpense (st : Store) (uid : String) (amount : Int)
    (description category : String) (currency currency_symbol : Option String) :
    Store × Row :=
  let r : Row :=
    { id := st.nextId, user_id := uid, amount := amount, description := description,
      category := category, currency := currency, currency_symbol := currency_symbol,
      created_at := st.now }
  ({ st with rows := st.rows ++ [r], nextId := st.nextId + 1, now := st.now + 1 }, r)

/-- POST /signup of src/server.js lines 71-80: sign a token over a fresh id and
the supplied email, insert the user row with the result of the insert ignored,
and respond with the token and the fresh id regardless. -/
def signup (env : Env) (freshId email : String) (st : Store) : Store × Resp :=
  let token := jwtSign env.secret { id := freshId, email := email }
  let st' :=
    match env.registerErr with
    | some _ => st
    | none => { st with users := st.users ++ [(freshId, email)] }
  (st', Resp.okSignup token freshId)

/-- POST /signup of src/Server.js lines 46-55: sign the token, read the user id
back by verifying the token just signed, insert the user row with the result
ignored, and respond with the token only. -/
def signupOld (env : Env) (freshId email : String) (st : Store) : Store × Resp :=
  let token := jwtSign env.secret { id := freshId, email := email }
  match jwtVerify token env.secret with
  | none => (st, Resp.exn)
  | some u =>
    let st' :=
      match env.registerErr with
      | some _ => st
      | none => { st with users := st.users ++ [(u.id, email)] }
    (st', Resp.okSignupOld token)

/-- Modelled from the spec: sections 4.1 and 9 describe a third signup variant,
not present under src/, in which issue fails with StoreError when registering
the identity with the external store fails, instead of silently ignoring the
failure and returning a token anyway. -/
def signupStrict (env : Env) (freshId email : String) (st : Store) : Store × Resp :=
  match env.registerErr with
  | some e => (st, Resp.err 400 e)
  | none =>
    ({ st with users := st.users ++ [(freshId, email)] },
     Resp.okSignup (jwtSign env.secret { id := freshId, email := email }) freshId)

/-- POST /expense handler body of src/server.js lines 85-123, after auth: call
the classifier (a rejection escapes the handler, there is no try/catch), take
choices[0].message.content.trim() as the category, insert the row with the
constant currency fields, and answer 400 on a store error. -/
def expenseHandler (env : Env) (user : Identity) (amount : Int) (description : String)
    (st : Store) : Store × Resp :=
  match env.classify description with
  | none => (st, Resp.exn)
  | some choices =>
    match choices.head? with
    | none => (st, Resp.exn)
    | some content =>
      let category := jsTrim content
      match env.insertErr with
      | some e => (st, Resp.err 400 e)
      | none =>
        let ins := insertExpense st user.id amount description category
          (some "INR") (some "₹")
        (ins.1, Resp.okExpense "Expense Added ✔" ins.2)

/-- POST /expense handler body of src/Server.js lines 60-89: same shape as the
latest variant but the category is choices[0].message.content with no trim and
no currency fields are sent. -/
def expenseHandlerOld (env : Env) (user : Identity) (amount : Int) (description : String)
    (st : Store) : Store × Resp :=
  match env.classify description with
  | none => (st, Resp.exn)
  | some choices =>
    match choices.head? with
    | none => (st, Resp.exn)
    | some content =>
      let category := content
      match env.insertErr with
      | some e => (st, Resp.err 400 e)
      | none =>
        let ins := insertExpense st user.id amount description category none none
        (ins.1, Resp.okExpense "Expense Added" ins.2)

/-- POST /add-expense handler body of src/server.js lines 128-145, after auth:
no classifier call; user_id and category come from the body through the JS
falsy-or, falling back to the authenticated id and to Other. -/
def addExpenseHandler (env : Env) (user : Identity) (amount : Int) (description : String)
    (category : Option String) (user_id : Option String) (st : Store) : Store × Resp :=
  let uid := jsOr user_id user.id
  let cat := jsOr category "Other"
  match env.insertErr with
  | some e => (st, Resp.err 400 e)
  | none =>
    let ins := insertExpense st uid amount description cat (some "INR") (some "₹")
    (ins.1, Resp.okAdd true)

/-- Ordering used by the expenses query: created_at descending. -/
def createdDesc (a b : Row) : Prop :=
  b.created_at ≤ a.created_at

instance : DecidableRel createdDesc :=
  fun a b => Nat.decLe b.created_at a.created_at

instance : IsTotal Row createdDesc :=
  ⟨fun a b => Nat.le_total b.created_at a.created_at⟩

instance : IsTrans Row createdDesc :=
  ⟨fun _ _ _ hab hbc => Nat.le_trans hbc hab⟩

/-- The query of GET /expenses: select rows with user_id equal to the given id,
ordered by created_at descending. -/
def listFor (st : Store) (uid : String) : List Row :=
  List.insertionSort createdDesc (st.rows.filter (fun r => decide (r.user_id = uid)))

/-- GET /expenses handler body of src/server.js lines 150-160 and
src/Server.js lines 94-104, after auth. -/
def listHandler (env : Env) (user : Identity) (st : Store) : Store × Resp :=
  match env.selectErr with
  | some e => (st, Resp.err 400 e)
  | none => (st, Resp.okList (listFor st user.id))

/-- DELETE /expense/:id handler body of src/server.js lines 165-177 and
src/Server.js lines 109-121, after auth: delete rows matching both the id
parameter and the authenticated user id, then always answer Deleted. -/
def deleteHandler (env : Env) (eid : Nat) (user : Identity) (st : Store) : Store × Resp :=
  match env.deleteErr with
  | some e => (st, Resp.err 400 e)
  | none =>
    ({ st with rows :=
        st.rows.filter (fun r => !(decide (r.id = eid) && decide (r.user_id = user.id))) },
     Resp.okDeleted "Deleted ✔")

/-- The full POST /expense route (auth middleware then handler). -/
def postExpense (env : Env) (authorization : Option String) (amount : Int)
    (description : String) (st : Store) : Store × Resp :=
  guarded env.secret env.parse authorization
    (fun u => expenseHandler env u amount description) st

/-- The full POST /add-expense route (auth middleware then handler). -/
def postAddExpense (env : Env) (authorization : Option String) (amount : Int)
    (description : String) (category user_id : Option String) (st : Store) :
    Store × Resp :=
  guarded env.secret env.parse authorization
    (fun u => addExpenseHandler env u amount description category user_id) st

/-- The full GET /expenses route (auth middleware then handler). -/
def getExpenses (env : Env) (authorization : Option String) (st : Store) : Store × Resp :=
  guarded env.secret env.parse authorization (listHandler env) st

/-- The full DELETE /expense/:id route (auth middleware then handler). -/
def deleteExpense (env : Env) (authorization : Option String) (eid : Nat) (st : Store) :
    Store × Resp :=
  guarded env.secret env.parse authorization (deleteHandler env eid) st

/-
Concrete fixtures used by witnesses and counterexamples.
-/

/-- An empty external store. -/
def emptyStore : Store :=
  { users := [], rows := [], nextId := 0, now := 0 }

/-- A concrete user identity. -/
def idA : Identity := { id := "a", email := "a@x" }

/-- A second concrete user identity. -/
def idB : Identity := { id := "b", email := "b@x" }

/-- A concrete expense row owned by user a. -/
def rowA : Row :=
  { id := 0, user_id := "a", amount := 50, description := "pizza", category := "Food",
    currency := some "INR", currency_symbol := some "₹", created_at := 0 }

/-- A concrete expense row owned by user b. -/
def rowB : Row :=
  { id := 1, user_id := "b", amount := 7, description := "soap", category := "Shopping",
    currency := some "INR", currency_symbol := some "₹", created_at := 1 }

/-- A store holding one expense of each of the two users. -/
def storeAB : Store :=
  { users := [("a", "a@x"), ("b", "b@x")], rows := [rowA, rowB], nextId := 2, now := 2 }

/-- A concrete environment in which every external call succeeds, the
classifier answers Food, and the token string tokB denotes a token signed for
user b under the current secret. -/
def envOk : Env :=
  { secret := "s"
  , parse := fun ts => if ts = "tokB" then Token.signed "s" idB else Token.malformed ts
  , classify := fun _ => some ["Food"]
  , insertErr := none, registerErr := none, selectErr := none, deleteErr := none }

/-- Like envOk but the classifier answers with surrounding whitespace. -/
def envTrimCex : Env := { envOk with classify := fun _ => some [" Food "] }

/-- Like envOk but the classifier call rejects. -/
def envClsFail : Env := { envOk with classify := fun _ => none }

/-- Like envOk but the expenses insert reports an error. -/
def envInsFail : Env := { envOk with insertErr := some "db down" }

/-- Like envOk but the users insert reports an error. -/
def envRegFail : Env := { envOk with registerErr := some "dup" }

/-- A concrete route handler body, used where a claim quantifies over the
handler guarded by the auth middleware. -/
def dummyHandler : Identity → Store → Store × Resp :=
  fun _ st => (st, Resp.exn)

/-
Shared helper lemmas.
-/

/-- Membership in the expenses query result is membership in the table with the
matching user_id. -/
theorem mem_listFor {st : Store} {uid : String} {r : Row} :
    r ∈ listFor st uid ↔ r ∈ st.rows ∧ r.user_id = uid := by
  unfold listFor
  rw [(List.perm_insertionSort createdDesc _).mem_iff]
  simp [List.mem_filter]

/-- The expenses query result is sorted by created_at descending. -/
theorem sorted_listFor (st : Store) (uid : String) :
    (listFor st uid).Pairwise (fun a b => b.created_at ≤ a.created_at) :=
  List.sorted_insertionSort createdDesc
    (st.rows.filter (fun r => decide (r.user_id = uid)))

/-- On a table with pairwise-distinct ids, the delete filter removes at most
one row. -/
theorem delete_removes_at_most_one (eid : Nat) (uid : String) :
    ∀ l : List Row, l.Pairwise (fun a b => a.id ≠ b.id) →
      l.length ≤
        (l.filter (fun r => !(decide (r.id = eid) && decide (r.user_id = uid)))).length + 1 := by
  intro l
  induction l with
  | nil => intro _; simp
  | cons r rs ih =>
    intro hl
    have hpair := List.pairwise_cons.mp hl
    rw [List.filter_cons]
    by_cases hm : r.id = eid ∧ r.user_id = uid
    · have htail :
          rs.filter (fun x => !(decide (x.id = eid) && decide (x.user_id = uid))) = rs := by
        apply List.filter_eq_self.mpr
        intro x hx
        have hne : r.id ≠ x.id := hpair.1 x hx
        have hxid : ¬(x.id = eid) := fun hxe => hne (hm.1.trans hxe.symm)
        simp [hxid]
      have hcond : (!(decide (r.id = eid) && decide (r.user_id = uid))) = false := by
        simp [hm.1, hm.2]
      rw [hcond, if_neg Bool.false_ne_true, htail]
      simp
    · have hcond : (!(decide (r.id = eid) && decide (r.user_id = uid))) = true := by
        rcases not_and_or.mp hm with h | h
        · simp [h]
        · simp [h]
      rw [hcond, if_pos rfl]
      simp only [List.length_cons]
      have := ih hpair.2
      omega

/-
Claim theorems.
-/

/-- Claim C2: round-trip of token issuance and verification.  For every signup
with email e, the token returned is the one signed under the current secret
over the freshly generated id and the supplied email, and verifying it with
the same secret succeeds and yields exactly that identity.  Both the latest
variant (which also returns the fresh id) and the older variant (which reads
the id back by verifying its own token) are covered. -/
theorem signup_verify_roundtrip (env : Env) (freshId email : String) (st : Store) :
    (signup env freshId email st).2 =
      Resp.okSignup (jwtSign env.secret { id := freshId, email := email }) freshId ∧
    (signupOld env freshId email st).2 =
      Resp.okSignupOld (jwtSign env.secret { id := freshId, email := email }) ∧
    jwtVerify (jwtSign env.secret { id := freshId, email := email }) env.secret =
      some { id := freshId, email := email } := by
  refine ⟨rfl, ?_, ?_⟩
  · simp [signupOld, jwtSign, jwtVerify]
  · simp [jwtSign, jwtVerify]

/-- Claim C3: verification failure cases.  For every protected route (the auth
middleware in front of an arbitrary handler body): when no token is presented
the result is 401 with body error No token, and when the presented token
string does not denote a token signed under the current secret (wrong secret,
tampered payload or malformed token) the result is 401 with body error
Invalid token; in both cases the store is untouched and the handler body is
never executed (the result does not depend on the handler). -/
theorem auth_failure_cases (secret : String) (parse : String → Token)
    (hdr : Option String) (ts : String) (handler : Identity → Store → Store × Resp)
    (st : Store) :
    (extractToken hdr = none →
      guarded secret parse hdr handler st = (st, Resp.err 401 "No token")) ∧
    (extractToken hdr = some ts → (∀ p, parse ts ≠ Token.signed secret p) →
      guarded secret parse hdr handler st = (st, Resp.err 401 "Invalid token")) := by
  constructor
  · intro h
    simp [guarded, auth, h]
  · intro h hforge
    have hv : jwtVerify (parse ts) secret = none := by
      cases htok : parse ts with
      | signed s p =>
        by_cases hs : s = secret
        · subst hs
          exact absurd htok (hforge p)
        · simp [jwtVerify, hs]
      | malformed raw => simp [jwtVerify]
    simp [guarded, auth, h, hv]

/-- Witness for auth_failure_cases: a request with no Authorization header gets
401 No token, and a request whose second header field is a malformed token
gets 401 Invalid token, with the store untouched in both cases. -/
theorem auth_failure_cases_witness :
    guarded "s" Token.malformed none dummyHandler emptyStore =
      (emptyStore, Resp.err 401 "No token") ∧
    guarded "s" Token.malformed (some "Bearer junk") dummyHandler emptyStore =
      (emptyStore, Resp.err 401 "Invalid token") :=
  ⟨(auth_failure_cases "s" Token.malformed none "x" dummyHandler emptyStore).1 rfl,
   (auth_failure_cases "s" Token.malformed (some "Bearer junk") "junk" dummyHandler
      emptyStore).2 (by decide) (fun p h => Token.noConfusion h)⟩

/-- Claim C7: for every identity, the expenses query returns exactly the rows
whose user_id equals the identity's id, in non-increasing created_at order,
and when the user has no expenses the route answers with the empty list (an
ok response, not an error). -/
theorem list_scoped_sorted (env : Env) (u : Identity) (st : Store) (r : Row) :
    (r ∈ listFor st u.id ↔ r ∈ st.rows ∧ r.user_id = u.id) ∧
    (listFor st u.id).Pairwise (fun a b => b.created_at ≤ a.created_at) ∧
    ((∀ x, x ∈ st.rows → x.user_id ≠ u.id) → listFor st u.id = []) ∧
    (env.selectErr = none → listHandler env u st = (st, Resp.okList (listFor st u.id))) := by
  refine ⟨mem_listFor, sorted_listFor st u.id, ?_, ?_⟩
  · intro hnone
    unfold listFor
    have hf : st.rows.filter (fun x => decide (x.user_id = u.id)) = [] := by
      rw [List.filter_eq_nil_iff]
      intro x hx
      simp [hnone x hx]
    rw [hf]
    rfl
  · intro hsel
    simp [listHandler, hsel]

/-- Witness for list_scoped_sorted: on the concrete two-user store, user b's
row is in user b's listing, the listing is sorted, a user with no rows gets
the empty list, and the route answers ok with the query result. -/
theorem list_scoped_sorted_witness :
    (rowB ∈ listFor storeAB idB.id ↔ rowB ∈ storeAB.rows ∧ rowB.user_id = idB.id) ∧
    (listFor storeAB idB.id).Pairwise (fun a b => b.created_at ≤ a.created_at) ∧
    listFor storeAB "c" = [] ∧
    listHandler envOk idB storeAB = (storeAB, Resp.okList (listFor storeAB idB.id)) :=
  ⟨(list_scoped_sorted envOk idB storeAB rowB).1,
   (list_scoped_sorted envOk idB storeAB rowB).2.1,
   (list_scoped_sorted envOk { id := "c", email := "c@x" } storeAB rowB).2.2.1
     (by decide),
   (list_scoped_sorted envOk idB storeAB rowB).2.2.2 rfl⟩

/-- Claim C1: user isolation.  For users A and B with different ids, a row
with A's user_id never appears in B's listing, and B's delete leaves every row
of A in the store; moreover every read and every delete the workflow issues is
filtered by user_id equal to the authenticated identity's id. -/
theorem user_isolation (env : Env) (A B : Identity) (st : Store) (eid : Nat) (r : Row)
    (hAB : A.id ≠ B.id) (hr : r.user_id = A.id) :
    r ∉ listFor st B.id ∧
    (env.deleteErr = none → r ∈ st.rows →
      r ∈ ((deleteHandler env eid B st).1).rows) ∧
    (∀ hdr u, auth env.secret env.parse hdr = AuthOutcome.ok u → env.selectErr = none →
      getExpenses env hdr st = (st, Resp.okList (listFor st u.id))) ∧
    (∀ hdr u, auth env.secret env.parse hdr = AuthOutcome.ok u → env.deleteErr = none →
      ((deleteExpense env hdr eid st).1).rows =
        st.rows.filter (fun x => !(decide (x.id = eid) && decide (x.user_id = u.id)))) := by
  have hrB : ¬(r.user_id = B.id) := fun hB => hAB (hr ▸ hB)
  refine ⟨?_, ?_, ?_, ?_⟩
  · intro hmem
    exact hrB (mem_listFor.mp hmem).2
  · intro hdel hmem
    simp [deleteHandler, hdel, List.mem_filter, hmem, hrB]
  · intro hdr u hu hsel
    simp [getExpenses, guarded, hu, listHandler, hsel]
  · intro hdr u hu hdel
    simp [deleteExpense, guarded, hu, deleteHandler, hdel]

/-- Witness for user_isolation: on the concrete two-user store, user a's row is
not in user b's listing, b's attempt to delete a's row (id 0) leaves it in the
store, and the authenticated routes for b read and delete only rows with b's
user_id. -/
theorem user_isolation_witness :
    rowA ∉ listFor storeAB idB.id ∧
    rowA ∈ ((deleteHandler envOk 0 idB storeAB).1).rows ∧
    getExpenses envOk (some "Bearer tokB") storeAB =
      (storeAB, Resp.okList (listFor storeAB idB.id)) ∧
    ((deleteExpense envOk (some "Bearer tokB") 0 storeAB).1).rows =
      storeAB.rows.filter (fun x => !(decide (x.id = 0) && decide (x.user_id = idB.id))) := by
  have h := user_isolation envOk idA idB storeAB 0 rowA (by decide) (by decide)
  exact ⟨h.1, h.2.1 rfl (by decide), h.2.2.1 (some "Bearer tokB") idB (by decide) rfl,
    h.2.2.2 (some "Bearer tokB") idB (by decide) rfl⟩

/-- Claim C6: delete idempotence.  On a well-formed store (pairwise-distinct
row ids) with the store's delete call succeeding, the delete handler answers
the same Deleted response whether or not a matching row existed, removes at
most one row, removes only a row matching both the id parameter and the
authenticated user's id, and leaves the store unchanged when no such row
exists. -/
theorem delete_idempotent (env : Env) (u : Identity) (eid : Nat) (st : Store)
    (hdel : env.deleteErr = none) (hwf : st.WF) :
    (deleteHandler env eid u st).2 = Resp.okDeleted "Deleted ✔" ∧
    st.rows.length ≤ ((deleteHandler env eid u st).1).rows.length + 1 ∧
    (∀ r, r ∈ st.rows → r ∉ ((deleteHandler env eid u st).1).rows →
      r.id = eid ∧ r.user_id = u.id) ∧
    ((∀ r, r ∈ st.rows → ¬(r.id = eid ∧ r.user_id = u.id)) →
      (deleteHandler env eid u st).1 = st) := by
  refine ⟨?_, ?_, ?_, ?_⟩
  · simp [deleteHandler, hdel]
  · simp only [deleteHandler, hdel]
    exact delete_removes_at_most_one eid u.id st.rows hwf
  · intro r hmem hout
    simp only [deleteHandler, hdel] at hout
    have hkeep : (!(decide (r.id = eid) && decide (r.user_id = u.id))) = false := by
      cases hb : (!(decide (r.id = eid) && decide (r.user_id = u.id))) with
      | false => rfl
      | true => exact absurd (List.mem_filter.mpr ⟨hmem, hb⟩) hout
    have hand : (decide (r.id = eid) && decide (r.user_id = u.id)) = true := by
      simpa using hkeep
    simpa using hand
  · intro hnomatch
    simp only [deleteHandler, hdel]
    have hf : st.rows.filter
        (fun x => !(decide (x.id = eid) && decide (x.user_id = u.id))) = st.rows := by
      apply List.filter_eq_self.mpr
      intro x hx
      have := hnomatch x hx
      simp only [Bool.not_eq_eq_eq_not, Bool.not_true, Bool.and_eq_false_iff]
      rcases not_and_or.mp this with h | h
      · left; simpa using h
      · right; simpa using h
    rw [hf]

/-- Witness for delete_idempotent: on the concrete two-user store, deleting
row 0 as its owner answers Deleted, removes at most one row, and the removed
row matched both filters; deleting a nonexistent id 5 leaves the store
unchanged (and still answers the same way). -/
theorem delete_idempotent_witness :
    (deleteHandler envOk 0 idA storeAB).2 = Resp.okDeleted "Deleted ✔" ∧
    storeAB.rows.length ≤ ((deleteHandler envOk 0 idA storeAB).1).rows.length + 1 ∧
    (rowA.id = 0 ∧ rowA.user_id = idA.id) ∧
    (deleteHandler envOk 5 idA storeAB).1 = storeAB := by
  have h0 := delete_idempotent envOk idA 0 storeAB rfl (by unfold Store.WF; decide)
  have h5 := delete_idempotent envOk idA 5 storeAB rfl (by unfold Store.WF; decide)
  exact ⟨h0.1, h0.2.1, h0.2.2.1 rowA (by decide) (by decide), h5.2.2.2 (by decide)⟩

/-- Claim C10: the token the middleware extracts is exactly the second
space-separated field of the Authorization header (an empty second field being
treated as no token); the scheme word is never inspected, so any header whose
second field denotes a token validly signed under the current secret
authenticates; and a header with no second field is rejected as a missing
token with 401 error No token. -/
theorem header_second_field_auth (secret : String) (parse : String → Token)
    (h ts : String) (p : Identity) (st : Store)
    (handler : Identity → Store → Store × Resp) :
    (extractToken (some h) =
      match (jsSplit ' ' h)[1]? with
      | none => none
      | some t => if t = "" then none else some t) ∧
    ((jsSplit ' ' h)[1]? = some ts → ts ≠ "" → parse ts = Token.signed secret p →
      auth secret parse (some h) = AuthOutcome.ok p) ∧
    ((jsSplit ' ' h)[1]? = none →
      guarded secret parse (some h) handler st = (st, Resp.err 401 "No token")) := by
  refine ⟨rfl, ?_, ?_⟩
  · intro h1 hts hsig
    simp [auth, extractToken, h1, hts, jwtVerify, hsig]
  · intro h1
    simp [guarded, auth, extractToken, h1]

/-- Witness for header_second_field_auth: a header with scheme word xyz instead
of Bearer still authenticates when its second field is a validly signed token,
and a bare token with no space (hence no second field) is rejected as a
missing token. -/
theorem header_second_field_auth_witness :
    auth "s" envOk.parse (some "xyz tokB") = AuthOutcome.ok idB ∧
    guarded "s" envOk.parse (some "tokB") dummyHandler emptyStore =
      (emptyStore, Resp.err 401 "No token") :=
  ⟨(header_second_field_auth "s" envOk.parse "xyz tokB" "tokB" idB emptyStore
      dummyHandler).2.1 (by decide) (by decide) (by decide),
   (header_second_field_auth "s" envOk.parse "tokB" "x" idB emptyStore
      dummyHandler).2.2 (by decide)⟩

/-- Counterexample to claim C4 as stated: in the older variant (src/Server.js,
one of the two handlers the claim covers) the stored category is the raw text
of the classifier's first response, not its trimmed text.  With a classifier
response carrying surrounding whitespace, the persisted category keeps the
whitespace while the trimmed text does not. -/
theorem submit_trim_counterexample :
    ((expenseHandlerOld envTrimCex idA 5 "pizza" emptyStore).1).rows.map
      (fun r => r.category) = [" Food "] ∧
    jsTrim " Food " = "Food" ∧
    (" Food " : String) ≠ "Food" := by
  decide

/-- Claim C4 as amended: for every successful submit, the persisted row has
user_id equal to the authenticated identity's id, the supplied amount and
description, and a category equal to the classifier's first response trimmed
in the latest variant but untrimmed in the older variant; the latest variant
also stores the constant currency fields INR and the rupee symbol while the
older variant stores none; and the classifier call strictly precedes the
insert: when the classifier fails, nothing is persisted. -/
theorem submit_persists_classified (env : Env) (user : Identity) (amount : Int)
    (description content : String) (rest : List String) (st : Store) :
    (env.classify description = some (content :: rest) → env.insertErr = none →
      (expenseHandler env user amount description st).1.rows =
        st.rows ++
          [{ id := st.nextId, user_id := user.id, amount := amount,
             description := description, category := jsTrim content,
             currency := some "INR", currency_symbol := some "₹",
             created_at := st.now }] ∧
      (expenseHandler env user amount description st).2 =
        Resp.okExpense "Expense Added ✔"
          { id := st.nextId, user_id := user.id, amount := amount,
            description := description, category := jsTrim content,
            currency := some "INR", currency_symbol := some "₹",
            created_at := st.now } ∧
      (expenseHandlerOld env user amount description st).1.rows =
        st.rows ++
          [{ id := st.nextId, user_id := user.id, amount := amount,
             description := description, category := content,
             currency := none, currency_symbol := none,
             created_at := st.now }]) ∧
    (env.classify description = none →
      expenseHandler env user amount description st = (st, Resp.exn) ∧
      expenseHandlerOld env user amount description st = (st, Resp.exn)) := by
  constructor
  · intro hc hi
    refine ⟨?_, ?_, ?_⟩
    · simp [expenseHandler, insertExpense, hc, hi]
    · simp [expenseHandler, insertExpense, hc, hi]
    · simp [expenseHandlerOld, insertExpense, hc, hi]
  · intro hc
    exact ⟨by simp [expenseHandler, hc], by simp [expenseHandlerOld, hc]⟩

/-- Witness for submit_persists_classified: a concrete successful submit by
user a with a whitespace-carrying classifier answer persists the trimmed
category in the latest variant and the raw one in the older variant, and a
concrete submit with a failing classifier persists nothing in either. -/
theorem submit_persists_classified_witness :
    ((expenseHandler envTrimCex idA 5 "pizza" emptyStore).1.rows =
      emptyStore.rows ++
        [{ id := emptyStore.nextId, user_id := idA.id, amount := 5,
           description := "pizza", category := jsTrim " Food ",
           currency := some "INR", currency_symbol := some "₹",
           created_at := emptyStore.now }] ∧
    (expenseHandler envTrimCex idA 5 "pizza" emptyStore).2 =
      Resp.okExpense "Expense Added ✔"
        { id := emptyStore.nextId, user_id := idA.id, amount := 5,
          description := "pizza", category := jsTrim " Food ",
          currency := some "INR", currency_symbol := some "₹",
          created_at := emptyStore.now } ∧
    (expenseHandlerOld envTrimCex idA 5 "pizza" emptyStore).1.rows =
      emptyStore.rows ++
        [{ id := emptyStore.nextId, user_id := idA.id, amount := 5,
           description := "pizza", category := " Food ",
           currency := none, currency_symbol := none,
           created_at := emptyStore.now }]) ∧
    (expenseHandler envClsFail idA 5 "pizza" emptyStore = (emptyStore, Resp.exn) ∧
     expenseHandlerOld envClsFail idA 5 "pizza" emptyStore = (emptyStore, Resp.exn)) :=
  ⟨(submit_persists_classified envTrimCex idA 5 "pizza" " Food " [] emptyStore).1
      rfl rfl,
   (submit_persists_classified envClsFail idA 5 "pizza" "x" [] emptyStore).2 rfl⟩

/-- Counterexample to claim C5 as stated: a failing classifier call is not
surfaced as an HTTP 400 response with an error body.  The route has no
try/catch around the inference call, so the rejection escapes the handler;
concretely the result is the escaped-exception outcome and is not a 400. -/
theorem classifier_error_counterexample :
    expenseHandler envClsFail idA 5 "pizza" emptyStore = (emptyStore, Resp.exn) ∧
    Resp.isErr400 (expenseHandler envClsFail idA 5 "pizza" emptyStore).2 = false := by
  decide

/-- Claim C5 as amended: when the classifier call fails the request fails
outright with no retry and no fallback category and nothing persisted, but as
an exception escaping the handler rather than an HTTP 400; when the store
insert fails the request fails with the store's error surfaced as HTTP 400
with the error body, again with nothing persisted. -/
theorem submit_error_behaviour (env : Env) (user : Identity) (amount : Int)
    (description content : String) (rest : List String) (st : Store) (e : String) :
    (env.classify description = none →
      expenseHandler env user amount description st = (st, Resp.exn) ∧
      Resp.isErr400 (expenseHandler env user amount description st).2 = false) ∧
    (env.classify description = some (content :: rest) → env.insertErr = some e →
      expenseHandler env user amount description st = (st, Resp.err 400 e)) := by
  constructor
  · intro hc
    constructor
    · simp [expenseHandler, hc]
    · simp [expenseHandler, hc, Resp.isErr400]
  · intro hc hi
    simp [expenseHandler, hc, hi]

/-- Witness for submit_error_behaviour: with a failing classifier the concrete
request ends in the escaped exception and nothing is stored; with a failing
insert the concrete request ends in 400 with the store's error body. -/
theorem submit_error_behaviour_witness :
    (expenseHandler envClsFail idB 9 "taxi" emptyStore = (emptyStore, Resp.exn) ∧
     Resp.isErr400 (expenseHandler envClsFail idB 9 "taxi" emptyStore).2 = false) ∧
    expenseHandler envInsFail idB 9 "taxi" emptyStore =
      (emptyStore, Resp.err 400 "db down") :=
  ⟨(submit_error_behaviour envClsFail idB 9 "taxi" "x" [] emptyStore "e").1 rfl,
   (submit_error_behaviour envInsFail idB 9 "taxi" "Food" [] emptyStore "db down").2
      rfl rfl⟩

/-- Claim C8: signup failure behaviour.  The spec-modelled strict variant
registers the generated identity and fails with the store's error when that
registration fails; both variants present under src ignore the registration
result, so on a registration failure they leave the users table untouched and
still return a token that verifies under the current secret: a token is
issued for an identity that was never registered. -/
theorem signup_registration_failure (env : Env) (freshId email : String)
    (st : Store) (e : String) :
    (env.registerErr = none →
      (signup env freshId email st).1.users = st.users ++ [(freshId, email)] ∧
      (signupOld env freshId email st).1.users = st.users ++ [(freshId, email)] ∧
      (signupStrict env freshId email st).1.users = st.users ++ [(freshId, email)]) ∧
    (env.registerErr = some e →
      signupStrict env freshId email st = (st, Resp.err 400 e) ∧
      (signup env freshId email st).2 =
        Resp.okSignup (jwtSign env.secret { id := freshId, email := email }) freshId ∧
      (signup env freshId email st).1.users = st.users ∧
      (signupOld env freshId email st).2 =
        Resp.okSignupOld (jwtSign env.secret { id := freshId, email := email }) ∧
      (signupOld env freshId email st).1.users = st.users ∧
      jwtVerify (jwtSign env.secret { id := freshId, email := email }) env.secret =
        some { id := freshId, email := email }) := by
  constructor
  · intro hr
    refine ⟨?_, ?_, ?_⟩
    · simp [signup, hr]
    · simp [signupOld, jwtSign, jwtVerify, hr]
    · simp [signupStrict, hr]
  · intro hr
    refine ⟨?_, ?_, ?_, ?_, ?_, ?_⟩
    · simp [signupStrict, hr]
    · rfl
    · simp [signup, hr]
    · simp [signupOld, jwtSign, jwtVerify]
    · simp [signupOld, jwtSign, jwtVerify, hr]
    · simp [jwtSign, jwtVerify]

/-- Witness for signup_registration_failure: with a succeeding users insert all
three variants register the identity; with a failing users insert the strict
variant answers 400 with the store's error while both src variants leave the
users table untouched and still return a verifying token. -/
theorem signup_registration_failure_witness :
    ((signup envOk "u1" "u1@x" emptyStore).1.users =
      emptyStore.users ++ [("u1", "u1@x")] ∧
     (signupOld envOk "u1" "u1@x" emptyStore).1.users =
      emptyStore.users ++ [("u1", "u1@x")] ∧
     (signupStrict envOk "u1" "u1@x" emptyStore).1.users =
      emptyStore.users ++ [("u1", "u1@x")]) ∧
    (signupStrict envRegFail "u1" "u1@x" emptyStore =
      (emptyStore, Resp.err 400 "dup") ∧
     (signup envRegFail "u1" "u1@x" emptyStore).2 =
      Resp.okSignup (jwtSign envRegFail.secret { id := "u1", email := "u1@x" }) "u1" ∧
     (signup envRegFail "u1" "u1@x" emptyStore).1.users = emptyStore.users ∧
     (signupOld envRegFail "u1" "u1@x" emptyStore).2 =
      Resp.okSignupOld (jwtSign envRegFail.secret { id := "u1", email := "u1@x" }) ∧
     (signupOld envRegFail "u1" "u1@x" emptyStore).1.users = emptyStore.users ∧
     jwtVerify (jwtSign envRegFail.secret { id := "u1", email := "u1@x" })
        envRegFail.secret = some { id := "u1", email := "u1@x" }) :=
  ⟨(signup_registration_failure envOk "u1" "u1@x" emptyStore "e").1 rfl,
   (signup_registration_failure envRegFail "u1" "u1@x" emptyStore "dup").2 rfl⟩

/-- Counterexample to claim C9 as stated: the manual insertion path does not
store the caller-supplied category nor write under the caller-supplied
user_id when those supplied values are empty strings, because the code uses
the JS falsy-or.  Supplying the empty category stores Other, and supplying
the empty user_id writes under the authenticated identity's id. -/
theorem manual_falsy_counterexample :
    ((addExpenseHandler envOk idA 5 "d" (some "") (some "") emptyStore).1).rows.map
      (fun r => r.category) = ["Other"] ∧
    ((addExpenseHandler envOk idA 5 "d" (some "") (some "") emptyStore).1).rows.map
      (fun r => r.user_id) = ["a"] ∧
    ("" : String) ≠ "Other" ∧
    ("" : String) ≠ "a" := by
  decide

/-- Claim C9 as amended: the manual insertion path makes no classifier call
(its result does not depend on the classifier); the stored category is the
caller-supplied category when non-empty and Other when absent or empty; and
the row is written under the caller-supplied user_id when non-empty (so a
caller can write an expense under a foreign user_id) and under the
authenticated identity's id when user_id is absent or empty. -/
theorem manual_insert_behaviour (env : Env) (u : Identity) (amount : Int)
    (description : String) (category user_id : Option String) (st : Store)
    (c uid : String) (f g : String → Option (List String)) :
    (addExpenseHandler { env with classify := f } u amount description
        category user_id st =
      addExpenseHandler { env with classify := g } u amount description
        category user_id st) ∧
    (env.insertErr = none →
      (addExpenseHandler env u amount description category user_id st).1.rows =
        st.rows ++
          [{ id := st.nextId, user_id := jsOr user_id u.id, amount := amount,
             description := description, category := jsOr category "Other",
             currency := some "INR", currency_symbol := some "₹",
             created_at := st.now }]) ∧
    (category = none ∨ category = some "" → jsOr category "Other" = "Other") ∧
    (category = some c → c ≠ "" → jsOr category "Other" = c) ∧
    (user_id = none ∨ user_id = some "" → jsOr user_id u.id = u.id) ∧
    (user_id = some uid → uid ≠ "" → jsOr user_id u.id = uid) := by
  refine ⟨rfl, ?_, ?_, ?_, ?_, ?_⟩
  · intro hi
    simp [addExpenseHandler, insertExpense, hi]
  · rintro (h | h) <;> simp [h, jsOr]
  · intro h hc
    simp [h, jsOr, hc]
  · rintro (h | h) <;> simp [h, jsOr]
  · intro h huid
    simp [h, jsOr, huid]

/-- Witness for manual_insert_behaviour: a concrete authenticated call by user
a supplying category Food and the foreign non-empty user_id b is independent
of the classifier and writes the row under b with category Food; the
defaulting facts are witnessed at absent category and user_id. -/
theorem manual_insert_behaviour_witness :
    (addExpenseHandler { envOk with classify := fun _ => none } idA 5 "d"
        (some "Food") (some "b") emptyStore =
      addExpenseHandler { envOk with classify := fun _ => some ["x"] } idA 5 "d"
        (some "Food") (some "b") emptyStore) ∧
    ((addExpenseHandler envOk idA 5 "d" (some "Food") (some "b") emptyStore).1.rows =
      emptyStore.rows ++
        [{ id := emptyStore.nextId, user_id := jsOr (some "b") idA.id, amount := 5,
           description := "d", category := jsOr (some "Food") "Other",
           currency := some "INR", currency_symbol := some "₹",
           created_at := emptyStore.now }]) ∧
    jsOr (none : Option String) "Other" = "Other" ∧
    jsOr (some "Food") "Other" = "Food" ∧
    jsOr (none : Option String) idA.id = idA.id ∧
    jsOr (some "b") idA.id = "b" := by
  have h1 := manual_insert_behaviour envOk idA 5 "d" (some "Food") (some "b")
    emptyStore "Food" "b" (fun _ => none) (fun _ => some ["x"])
  have h2 := manual_insert_behaviour envOk idA 5 "d" none none
    emptyStore "Food" "b" (fun _ => none) (fun _ => some ["x"])
  exact ⟨h1.1, h1.2.1 rfl, h2.2.2.1 (Or.inl rfl), h1.2.2.2.1 rfl (by decide),
    h2.2.2.2.2.1 (Or.inl rfl), h1.2.2.2.2.2 rfl (by decide)⟩
